import Mathlib

/-!
Shallow embedding of `src/lowpoly.py` (the `execute` pipeline of the
michaelgold/lowpoly repository) and verification of the specification
claims about it.

Modelling conventions:
* rational numbers stand for the script's real-valued quantities
  (bounding-box coordinates, voxel sizes, thresholds, percentages);
* every call into the Blender host (`bpy.ops.*` geometry operators,
  importers) is an opaque function supplied by an `Env` record, since the
  spec treats those operators as external collaborators specified only at
  their interface;
* observable side effects (image creation, bake invocations, modifier
  application/removal, object deletion, the final GLB export) are recorded
  in an event trace carried through the run;
* Python exceptions (`ValueError`, `KeyError`) become an `Err` value and
  a short-circuited result. The spec groups the two source-resolution
  failures (`ValueError("No mesh found in the scene")` at line 112 and the
  `KeyError` of `bpy.data.objects[name]` at line 115) under the single
  abstract name `NotFoundError`; `Err.isNotFound` encodes that grouping.
-/

namespace Lowpoly

/-- A 3D point with rational coordinates; component `.2.2` is the vertical
(z) coordinate, matching `vertex[2]` in the source. -/
abbrev Vec3 : Type := ℚ × ℚ × ℚ

/-- A polygon of a mesh: its ordered list of vertex indices
(`p.vertices` in the source). -/
structure Polygon where
  vertices : List Nat
deriving DecidableEq

/-- A shading node of a material node tree (an entry of
`mat.node_tree.nodes`); `image` is the name of the image bound to a
`TEX_IMAGE` node. -/
structure ShaderNode where
  name : String
  type : String
  image : Option String := none
deriving DecidableEq

/-- A material datablock: name, `use_nodes` flag, node tree and links
(links are recorded as (from-socket, to-socket) description pairs). -/
structure Material where
  name : String
  use_nodes : Bool := false
  nodes : List ShaderNode := []
  links : List (String × String) := []
deriving DecidableEq

/-- A modifier on an object, with the union of the fields the script sets:
`voxel_size`/`mode` for REMESH, `levels`/`total_levels` for MULTIRES,
`wrap_method`/`project_limit`/`target` for SHRINKWRAP. -/
structure Modifier where
  name : String
  type : String
  mode : String := ""
  voxel_size : ℚ := 0
  levels : Nat := 0
  total_levels : Nat := 0
  wrap_method : String := ""
  project_limit : ℚ := 0
  target : Option String := none
deriving DecidableEq

/-- Mesh datablock (`obj.data`): polygons, vertex-color channels (names),
material slots, and UV channels. A UV channel is abstracted as a
per-polygon flag telling whether that polygon is parameterized in it. -/
structure MeshData where
  polygons : List Polygon := []
  vertex_colors : List String := []
  materials : List Material := []
  uv_layers : List (List Bool) := []
deriving DecidableEq

/-- A scene object: name, object type (the script tests for "MESH"),
datablock, bounding box corners, modifier stack, shading flag. -/
structure Obj where
  name : String
  type : String := "MESH"
  data : MeshData := {}
  bound_box : List Vec3 := []
  modifiers : List Modifier := []
  smooth : Bool := false
deriving DecidableEq

/-- Errors the script can raise: `ValueError("Invalid file format")`
(line 106), `ValueError("No mesh found in the scene")` (line 112), and the
`KeyError` of `bpy.data.objects[name]` (line 115). -/
inductive Err where
  | invalidFileFormat
  | noMeshFound
  | keyError (name : String)
deriving DecidableEq

/-- The specification's abstract `NotFoundError` covers both
source-resolution failures of the script (missing mesh, absent name). -/
def Err.isNotFound : Err → Bool
  | .noMeshFound => true
  | .keyError _ => true
  | .invalidFileFormat => false

/-- Observable side effects of a run, in program order. -/
inductive Event where
  | modifierApplied (objName : String) (m : Modifier)
  | modifierRemoved (objName : String) (modName : String)
  | imageNew (name : String) (width : Nat) (height : Nat)
  | bakeImage
  | bake (bakeType : String)
  | imagePack
  | objectDeleted (name : String)
  | exportGLB (filepath : String)
deriving DecidableEq

/-- The run-level configuration: the parameters of `execute`
(lines 72-82) with their source defaults. -/
structure Config where
  file_path : String
  source_object_name : String := ""
  target_faces : Int := 7500
  texture_resolution : Nat := 2048
  multiresolution_levels : Int := 3
  voxel_size_factor : ℚ := 1/100
  voxel_remesh_iterations : Int := 1
  cleanup_threshold : ℚ := 1/1000
  keep_vertex_colors : Bool := false

/-- The external collaborators: the imported scene content, the session's
pre-existing image identifiers, the opaque Blender geometry operators, the
value drawn by `random.randint(1000, 9999)`, and the host's renaming of a
duplicated object. Defaults give identity operators for concrete tests. -/
structure Env where
  initialObjects : List Obj := []
  importedObjects : List Obj := []
  initialImages : List String := []
  voxelRemesh : ℚ → MeshData → MeshData := fun _ d => d
  normalsMakeConsistent : MeshData → MeshData := id
  removeDoubles : ℚ → MeshData → MeshData := fun _ d => d
  fillHoles : MeshData → MeshData := id
  nonManifoldVerts : MeshData → Nat := fun _ => 0
  quadriflowRemesh : Int → MeshData → MeshData := fun _ d => d
  smartProject : ℚ → MeshData → MeshData := fun _ d => d
  shrinkwrapEffect : Modifier → MeshData → MeshData := fun _ d => d
  randint : Nat := 1000
  duplicateSuffix : String → String := fun s => s ++ ".001"

/-- Result of a run: the error (if any), the event trace, the target
object handed to the GLB exporter (none when export is never reached),
and the session's image identifiers at the end. -/
structure RunResult where
  error : Option Err := none
  trace : List Event := []
  exported : Option Obj := none
  images : List String := []
deriving DecidableEq

/-- Lines 64-68: return the first object of type "MESH" in scene order. -/
def find_first_mesh (objects : List Obj) : Option Obj :=
  objects.find? (fun o => o.type == "MESH")

/-- Lines 86-88 then 97-104: the default Cube is deleted before the import
appends the imported objects to the scene. -/
def sceneAfterImport (env : Env) : List Obj :=
  env.initialObjects.filter (fun o => o.name != "Cube") ++ env.importedObjects

/-- Python `str.endswith`, computed on the underlying character lists. -/
def endsWithStr (s pat : String) : Bool := pat.data.isSuffixOf s.data

/-- Lines 97-106: the import dispatch accepts exactly the four extensions;
anything else raises `ValueError("Invalid file format")`. -/
def validExtension (p : String) : Bool :=
  endsWithStr p ".fbx" || endsWithStr p ".glb" || endsWithStr p ".obj" || endsWithStr p ".usdz"

/-- Lines 108-115: resolve the source object. An empty name selects the
first mesh in the scene (raising if none); a nonempty name is looked up by
name (`bpy.data.objects[name]`), raising `KeyError` when absent. -/
def resolveSource (objects : List Obj) (name : String) : Except Err Obj :=
  if name = "" then
    match find_first_mesh objects with
    | none => .error .noMeshFound
    | some o => .ok o
  else
    match objects.find? (fun o => o.name == name) with
    | none => .error (.keyError name)
    | some o => .ok o

/-- Python `max` over a nonempty sequence (left fold from the head).
The source only evaluates it on the 8 bounding-box corners, so the empty
case (where Python would raise) is given the default 0. -/
def listMax : List ℚ → ℚ
  | [] => 0
  | x :: xs => xs.foldl max x

/-- Python `min` over a nonempty sequence, as `listMax`. -/
def listMin : List ℚ → ℚ
  | [] => 0
  | x :: xs => xs.foldl min x

/-- Lines 123-126: `object_height` is max minus min of the z coordinates
of the bounding-box corners. -/
def objectHeight (bbox : List Vec3) : ℚ :=
  listMax (bbox.map (fun v => v.2.2)) - listMin (bbox.map (fun v => v.2.2))

/-- Line 127: `normalized_voxel_size = object_height * voxel_size_factor`. -/
def normalized_voxel_size (bbox : List Vec3) (voxel_size_factor : ℚ) : ℚ :=
  objectHeight bbox * voxel_size_factor

/-- The remesh modifier as configured at lines 145-147 and 153-155. -/
def remeshModifier (nvs : ℚ) : Modifier :=
  { name := "Remesh", type := "REMESH", mode := "VOXEL", voxel_size := nvs }

/-- The multiresolution modifier added at line 214. -/
def multiresModifier : Modifier :=
  { name := "Multires", type := "MULTIRES" }

/-- The shrinkwrap modifier as configured at lines 221-224
(`project_limit = 0.005`). -/
def shrinkwrapModifier (targetName : String) : Modifier :=
  { name := "Shrinkwrap", type := "SHRINKWRAP", wrap_method := "PROJECT",
    project_limit := 1/200, target := some targetName }

/-- The effect of applying one modifier to a datablock: REMESH and
SHRINKWRAP delegate to the host operators, anything else is inert. -/
def modifierEffect (env : Env) (m : Modifier) (d : MeshData) : MeshData :=
  if m.type = "REMESH" then env.voxelRemesh m.voxel_size d
  else if m.type = "SHRINKWRAP" then env.shrinkwrapEffect m d
  else d

/-- `bpy.ops.object.modifier_apply(modifier=mname)`: the first modifier
with that name is applied to the datablock and removed from the stack,
and the application is recorded in the trace. -/
def applyModifierByName (env : Env) (o : Obj) (mname : String)
    (tr : List Event) : Obj × List Event :=
  match o.modifiers.find? (fun m => m.name == mname) with
  | some m =>
      ({ o with data := modifierEffect env m o.data,
                modifiers := o.modifiers.eraseP (fun x => x.name == mname) },
       tr ++ [Event.modifierApplied o.name m])
  | none => (o, tr)

/-- Lines 150-155, one iteration at index `i` of `range(iters)`: apply the
"Remesh" modifier; while `i < iters - 1`, push a fresh identical remesh
modifier for the next iteration. `fuel` counts the remaining iterations. -/
def remeshSteps (env : Env) (nvs : ℚ) (iters : Int) :
    Nat → Nat → Obj → List Event → Obj × List Event
  | _, 0, o, tr => (o, tr)
  | i, fuel + 1, o, tr =>
      let step := applyModifierByName env o "Remesh" tr
      let o2 :=
        if (i : Int) < iters - 1 then
          { step.1 with modifiers := step.1.modifiers ++ [remeshModifier nvs] }
        else step.1
      remeshSteps env nvs iters (i + 1) fuel o2 step.2

/-- Lines 150-155: the whole `for _ in range(voxel_remesh_iterations)`
loop (a negative iteration count gives an empty range, as in Python). -/
def remeshLoop (env : Env) (nvs : ℚ) (iters : Int) (o : Obj)
    (tr : List Event) : Obj × List Event :=
  remeshSteps env nvs iters 0 iters.toNat o tr

/-- Line 218, effect on one stack entry: `multires_subdivide` adds one
subdivision level to the modifier named "Multires". -/
def subdivideMultiresEntry (m : Modifier) : Modifier :=
  if m.name = "Multires" then
    { m with levels := m.levels + 1, total_levels := m.total_levels + 1 }
  else m

/-- Line 218: one `bpy.ops.object.multires_subdivide(modifier="Multires")`
call on the active object. -/
def multires_subdivide (o : Obj) : Obj :=
  { o with modifiers := o.modifiers.map subdivideMultiresEntry }

/-- Lines 195-201: the quad statistics printed after the quadriflow
remesh. -/
structure QuadStats where
  quad_count : Nat
  total_faces : Nat
  quad_percentage : ℚ
deriving DecidableEq

/-- Lines 195-197: `quad_count` counts polygons with exactly 4 vertices,
`total_faces` counts all polygons, and the percentage is guarded against
an empty mesh. -/
def quadStats (d : MeshData) : QuadStats :=
  let quad_count := (d.polygons.filter (fun p => p.vertices.length == 4)).length
  let total_faces := d.polygons.length
  { quad_count := quad_count, total_faces := total_faces,
    quad_percentage :=
      if total_faces > 0 then ((quad_count : ℚ) / (total_faces : ℚ)) * 100 else 0 }

/-- Line 210: the island margin passed to `uv.smart_project`. -/
def islandMargin : ℚ := 2/100

/-- The spec's UV-stage postcondition: exactly one UV channel in which
every polygon is parameterized. -/
def uvFullyCovered (d : MeshData) : Bool :=
  match d.uv_layers with
  | [layer] => layer.all (fun b => b)
  | _ => false

/-- The default node tree created by `use_nodes = True`. -/
def defaultNodes : List ShaderNode :=
  [{ name := "Principled BSDF", type := "BSDF_PRINCIPLED" },
   { name := "Material Output", type := "OUTPUT_MATERIAL" }]

/-- The material built by `create_vertex_color_material` (lines 37-53):
cleared nodes, then vertex-color, principled BSDF and output nodes, with
the vertex color wired into the base color. -/
def vertexColorMaterial : Material :=
  { name := "VertexColorMaterial", use_nodes := true,
    nodes := [{ name := "Vertex Color", type := "VERTEX_COLOR" },
              { name := "Principled BSDF", type := "BSDF_PRINCIPLED" },
              { name := "Material Output", type := "OUTPUT_MATERIAL" }],
    links := [("VERTEX_COLOR:Color", "BSDF_PRINCIPLED:Base Color"),
              ("BSDF_PRINCIPLED:BSDF", "OUTPUT_MATERIAL:Surface")] }

/-- Lines 55-59 of `create_vertex_color_material`: the new material
replaces slot 0 when a slot exists, otherwise it is appended. -/
def create_vertex_color_material (d : MeshData) : Material × MeshData :=
  match d.materials with
  | [] => (vertexColorMaterial, { d with materials := [vertexColorMaterial] })
  | _ :: rest => (vertexColorMaterial, { d with materials := vertexColorMaterial :: rest })

/-- The plain material created at lines 234-236 when the object has no
material and the vertex-color fast path does not apply. -/
def plainMaterial : Material :=
  { name := "New Material", use_nodes := true, nodes := defaultNodes }

/-- Lines 226-241: material setup on the target. With no existing slot, a
vertex-color material is built exactly when the object has vertex colors
and `keep_vertex_colors` is set, else a plain node material is appended;
with an existing slot, slot 0 is replaced by a copy (the host renames the
copy with a ".001" suffix). Returns `new_mat` and the updated object. -/
def materialSetup (target : Obj) (has_vertex_colors keep : Bool) : Material × Obj :=
  match target.data.materials with
  | [] =>
      if has_vertex_colors && keep then
        let r := create_vertex_color_material target.data
        (r.1, { target with data := r.2 })
      else
        let d := { target.data with materials := target.data.materials ++ [plainMaterial] }
        (plainMaterial, { target with data := d })
  | original :: rest =>
      let new_mat := { original with name := original.name ++ ".001" }
      (new_mat, { target with data := { target.data with materials := new_mat :: rest } })

/-- Line 247-248 and 252-253: the generated texture identifiers
`f"Diffuse_{number}"` and `f"Normals_{number}"`. -/
def diffuseName (number : Nat) : String := "Diffuse_" ++ toString number

/-- The second generated texture identifier. -/
def normalsName (number : Nat) : String := "Normals_" ++ toString number

/-- Lines 244-329, executed only when `keep_vertex_colors` is false:
allocate the two raster buffers, build the texture nodes, apply the
shrinkwrap modifier, set the multires sampling level to 1, run the normal
and diffuse bakes, and wire the texture nodes into the BSDF. Returns the
updated target, session images and trace. -/
def bakeStage (env : Env) (cfg : Config) (target : Obj) (new_mat : Material)
    (images : List String) (tr : List Event) : Obj × List String × List Event :=
  let number := env.randint
  let dName := diffuseName number
  let nName := normalsName number
  let images := images ++ [dName, nName]
  let tr := tr ++
    [Event.imageNew dName cfg.texture_resolution cfg.texture_resolution,
     Event.imageNew nName cfg.texture_resolution cfg.texture_resolution]
  let bsdfFallback : List ShaderNode :=
    if (new_mat.nodes.find? (fun nd => nd.name == "Principled BSDF")).isSome then []
    else [{ name := "Principled BSDF", type := "BSDF_PRINCIPLED" }]
  let new_mat := { new_mat with nodes := new_mat.nodes ++ bsdfFallback }
  let texNodes : List ShaderNode :=
    [{ name := "Image Texture", type := "TEX_IMAGE", image := some dName },
     { name := "Image Texture.001", type := "TEX_IMAGE", image := some nName },
     { name := "Normal Map", type := "NORMAL_MAP" }]
  let new_mat := { new_mat with nodes := new_mat.nodes ++ texNodes }
  let step := applyModifierByName env target "Shrinkwrap" tr
  let target := step.1
  let tr := step.2
  let leveled := target.modifiers.map
    (fun m => if m.name = "Multires" then { m with levels := 1 } else m)
  let target := { target with modifiers := leveled }
  let tr := tr ++ [Event.bakeImage, Event.imagePack]
  let tr := tr ++ [Event.bake "DIFFUSE", Event.imagePack]
  let new_mat := { new_mat with links := new_mat.links ++
      [("TEX_IMAGE:Color", "BSDF_PRINCIPLED:Base Color"),
       ("TEX_IMAGE:Color", "NORMAL_MAP:Color"),
       ("NORMAL_MAP:Normal", "BSDF_PRINCIPLED:Normal")] }
  let slots :=
    match target.data.materials with
    | [] => [new_mat]
    | _ :: rest => new_mat :: rest
  let target := { target with data := { target.data with materials := slots } }
  (target, images, tr)

/-- `pathlib.Path(p).stem` for ordinary file names: the final path
component (after the last path separator) without its last extension. -/
def stem (p : String) : String :=
  let name := (p.data.reverse.takeWhile (fun c => c != '/')).reverse
  if name.contains '.' then
    String.mk ((name.reverse.dropWhile (fun c => c != '.')).drop 1).reverse
  else String.mk name

/-- Lines 120-224: everything between source resolution and material
setup. The source is shaded smooth, the voxel size derived, the source
duplicated into the target, the remesh loop run, the edit-mode cleanup
and quadriflow remesh applied, the UV projection performed, and the
multires (with its subdivision loop) and shrinkwrap modifiers added.
Returns the target object and the trace so far. -/
def targetBeforeMaterial (env : Env) (cfg : Config) (source0 : Obj) :
    Obj × List Event :=
  let source := { source0 with smooth := true }
  let nvs := normalized_voxel_size source.bound_box cfg.voxel_size_factor
  let target := { source with name := env.duplicateSuffix source.name }
  let target := { target with modifiers := target.modifiers ++ [remeshModifier nvs] }
  let step := remeshLoop env nvs cfg.voxel_remesh_iterations target []
  let target := step.1
  let tr := step.2
  let cleaned := env.fillHoles (env.removeDoubles cfg.cleanup_threshold
    (env.normalsMakeConsistent target.data))
  let target := { target with data := cleaned }
  let remeshed := env.quadriflowRemesh cfg.target_faces target.data
  let target := { target with data := remeshed }
  let target := { target with smooth := true }
  let target := { target with data := env.smartProject islandMargin target.data }
  let target := { target with modifiers := target.modifiers ++ [multiresModifier] }
  let target := multires_subdivide^[cfg.multiresolution_levels.toNat] target
  let withShrinkwrap := target.modifiers ++ [shrinkwrapModifier source0.name]
  let target := { target with modifiers := withShrinkwrap }
  (target, tr)

/-- Lines 226-356 after the cage is built: material setup, the optional
bake stage (skipped exactly when `keep_vertex_colors` is set), removal of
the multires modifier, deletion of the source object, and the GLB
export. -/
def pipelineAfterMaterial (env : Env) (cfg : Config) (sourceName : String)
    (target : Obj) (tr : List Event) : RunResult :=
  let has_vertex_colors := !target.data.vertex_colors.isEmpty
  let ms := materialSetup target has_vertex_colors cfg.keep_vertex_colors
  let bk :=
    if cfg.keep_vertex_colors then (ms.2, env.initialImages, tr)
    else bakeStage env cfg ms.2 ms.1 env.initialImages tr
  let target := bk.1
  let images := bk.2.1
  let tr := bk.2.2
  let erased := target.modifiers.eraseP (fun m => m.name == "Multires")
  let target := { target with modifiers := erased }
  let tr := tr ++
    [Event.modifierRemoved target.name "Multires",
     Event.objectDeleted sourceName,
     Event.exportGLB (stem cfg.file_path ++ ".glb")]
  { error := none, trace := tr, exported := some target, images := images }

/-- The whole `execute` command (lines 72-356): import-format dispatch,
source resolution, and the post-resolution pipeline. An early raise
yields an error result with an empty trace and no export. -/
def execute (env : Env) (cfg : Config) : RunResult :=
  if validExtension cfg.file_path then
    match resolveSource (sceneAfterImport env) cfg.source_object_name with
    | .error e => { error := some e, images := env.initialImages }
    | .ok source =>
        let tbm := targetBeforeMaterial env cfg source
        pipelineAfterMaterial env cfg source.name tbm.1 tbm.2
  else { error := some .invalidFileFormat, images := env.initialImages }

/-! Concrete fixtures used by witnesses and counterexamples. -/

/-- A mesh consisting of a single triangle. -/
def triMesh : MeshData := { polygons := [{ vertices := [0, 1, 2] }] }

/-- A mesh consisting of a single quad. -/
def quadMesh : MeshData := { polygons := [{ vertices := [0, 1, 2, 3] }] }

/-- A bounding box of height 1 along the vertical axis. -/
def bboxUnit : List Vec3 := [(0, 0, 0), (0, 0, 1)]

/-- The `n`-fold iterate of the voxel-remesh operator at a fixed voxel
size: the datablock obtained by re-voxelizing the previous pass's output
`n` times. -/
def voxelIter (env : Env) (nvs : ℚ) (n : Nat) (d : MeshData) : MeshData :=
  (fun x => env.voxelRemesh nvs x)^[n] d

/-- The trace fragment of `n` applications of the same remesh modifier to
the object named `onm`. -/
def remeshEvents (onm : String) (nvs : ℚ) (n : Nat) : List Event :=
  List.replicate n (Event.modifierApplied onm (remeshModifier nvs))

/-- All-default environment with identity geometry operators. -/
def envId : Env := {}

/-- A source object used by the remesh-loop witness. -/
def sourceW : Obj := { name := "S", bound_box := bboxUnit }

/-- A run configuration asking for two voxel-remesh iterations. -/
def cfgW : Config :=
  { file_path := "model.glb", voxel_size_factor := 1/100, voxel_remesh_iterations := 2 }

/-- The duplicated target as it enters the remesh loop in the witness run:
a fresh remesh modifier at the derived voxel size is the whole stack. -/
def objW : Obj :=
  { name := "T",
    modifiers := [remeshModifier (normalized_voxel_size sourceW.bound_box cfgW.voxel_size_factor)] }

/-- An environment whose imported scene holds no mesh-typed object. -/
def envNoMesh : Env := { importedObjects := [{ name := "Light1", type := "LIGHT" }] }

/-- A configuration with a supported extension and no explicit source
name. -/
def cfgNoMesh : Config := { file_path := "scene.glb" }

/-- A mesh object carrying a vertex-color channel. -/
def vcMeshObj : Obj :=
  { name := "V", data := { vertex_colors := ["Col"] }, bound_box := bboxUnit }

/-- An environment importing just the vertex-colored mesh. -/
def envVC : Env := { importedObjects := [vcMeshObj] }

/-- A configuration enabling the vertex-color fast path. -/
def cfgKeep : Config := { file_path := "m.glb", keep_vertex_colors := true }

/-- A degenerate (flat) mesh object: every bounding-box corner has the
same vertical coordinate, so its height is 0. -/
def flatObj : Obj :=
  { name := "Flat", data := triMesh, bound_box := [(0, 0, 0), (1, 0, 0), (0, 1, 0)] }

/-- An environment importing just the flat object. -/
def envFlat : Env := { importedObjects := [flatObj] }

/-- A default configuration for the flat object. -/
def cfgFlat : Config := { file_path := "flat.glb" }

/-- The voxel size the run derives for the flat object. -/
def nvsFlat : ℚ := normalized_voxel_size flatObj.bound_box cfgFlat.voxel_size_factor

/-- An ordinary one-quad mesh object. -/
def meshObj : Obj := { name := "M", data := quadMesh, bound_box := bboxUnit }

/-- An environment importing just the plain one-quad mesh (no vertex
colors, no materials, no modifiers). -/
def envM : Env := { importedObjects := [meshObj] }

/-- An environment whose smart-projection operator leaves the single
polygon unparameterized (one UV channel, polygon flag `false`). -/
def envBadUV : Env :=
  { importedObjects := [meshObj],
    smartProject := fun _ d => { d with uv_layers := [[false]] } }

/-- A default configuration for the bad-UV run. -/
def cfgBadUV : Config := { file_path := "model.obj" }

/-- An environment whose imported scene is empty. -/
def envEmptyScene : Env := {}

/-- A configuration (valid extension) for the empty scene. -/
def cfgEmptyScene : Config := { file_path := "empty.fbx" }

/-- A session already holding an image named "Diffuse_1234" (for example
brought in by the import), with the random draw landing on 1234. -/
def envCollide : Env :=
  { importedObjects := [meshObj], initialImages := ["Diffuse_1234"], randint := 1234 }

/-- A default configuration for the collision run. -/
def cfgCollide : Config := { file_path := "m.glb" }

/-- The voxel size the collision run derives. -/
def nvsCollide : ℚ := normalized_voxel_size meshObj.bound_box cfgCollide.voxel_size_factor

/-- The target datablock as it stands after the UV stage: the source
data voxel-remeshed `n` times, cleaned up, quadriflow-remeshed and
smart-projected. -/
def cageData (env : Env) (cfg : Config) (source : Obj) : MeshData :=
  env.smartProject islandMargin (env.quadriflowRemesh cfg.target_faces
    (env.fillHoles (env.removeDoubles cfg.cleanup_threshold
      (env.normalsMakeConsistent (voxelIter env
        (normalized_voxel_size source.bound_box cfg.voxel_size_factor)
        cfg.voxel_remesh_iterations.toNat source.data)))))

/-! Theorems. -/

/-- Helper: events appended by a single `modifier_apply` are
modifier-application events. -/
theorem applyModifierByName_events (env : Env) (o : Obj) (mname : String)
    (tr : List Event) (ev : Event)
    (h : ev ∈ (applyModifierByName env o mname tr).2) :
    ev ∈ tr ∨ ∃ onm m, ev = Event.modifierApplied onm m := by
  unfold applyModifierByName at h
  cases hf : o.modifiers.find? (fun m => m.name == mname) with
  | none => rw [hf] at h; exact Or.inl h
  | some m =>
      rw [hf] at h
      rcases List.mem_append.mp h with h2 | h2
      · exact Or.inl h2
      · exact Or.inr ⟨o.name, m, List.mem_singleton.mp h2⟩

/-- Helper: every event appended by the voxel-remesh loop is a
modifier-application event. -/
theorem remeshSteps_events (env : Env) (nvs : ℚ) (iters : Int) :
    ∀ (fuel i : Nat) (o : Obj) (tr : List Event) (ev : Event),
      ev ∈ (remeshSteps env nvs iters i fuel o tr).2 →
      ev ∈ tr ∨ ∃ onm m, ev = Event.modifierApplied onm m := by
  intro fuel
  induction fuel with
  | zero => intro i o tr ev h; exact Or.inl h
  | succ f ih =>
      intro i o tr ev h
      simp only [remeshSteps] at h
      rcases ih _ _ _ _ h with h2 | h2
      · exact applyModifierByName_events env o "Remesh" tr ev h2
      · exact Or.inr h2

/-- Helper: the exact behaviour of the voxel-remesh loop body when the
modifier stack holds exactly the freshly added remesh modifier: each of
the `fuel` remaining iterations applies the voxel remesh at size `nvs` to
the previous output, and the final apply leaves the stack empty. -/
theorem remeshSteps_spec (env : Env) (nvs : ℚ) (iters : Int) :
    ∀ (fuel i : Nat) (o : Obj) (tr : List Event),
      o.modifiers = [remeshModifier nvs] →
      (i : Int) + fuel = iters →
      1 ≤ fuel →
      remeshSteps env nvs iters i fuel o tr =
        ({ o with data := voxelIter env nvs fuel o.data, modifiers := ([] : List Modifier) },
         tr ++ remeshEvents o.name nvs fuel) := by
  intro fuel
  induction fuel with
  | zero => intro i o tr _ _ h1; exact absurd h1 (by omega)
  | succ f ih =>
      intro i o tr hm hsum _
      have happ : applyModifierByName env o "Remesh" tr =
          ({ o with data := env.voxelRemesh nvs o.data, modifiers := ([] : List Modifier) },
           tr ++ [Event.modifierApplied o.name (remeshModifier nvs)]) := by
        simp [applyModifierByName, hm, remeshModifier, modifierEffect]
      rcases Nat.eq_zero_or_pos f with hf | hf
      · subst hf
        have hcond : ¬ ((i : Int) < iters - 1) := by omega
        simp only [remeshSteps, happ, if_neg hcond]
        simp [voxelIter, remeshEvents]
      · have hcond : (i : Int) < iters - 1 := by push_cast at hsum ⊢; omega
        simp only [remeshSteps, happ, if_pos hcond]
        rw [ih (i + 1) _ _ (by simp) (by push_cast at hsum ⊢; omega) hf]
        simp [voxelIter, remeshEvents, Function.iterate_succ_apply, List.replicate_succ]

/-- Claim C7: for every iteration count ≥ 1, the manifold-reconstruction
loop applies the voxel remesh pass exactly `voxel_remesh_iterations`
times — the trace gains exactly that many applications of the remesh
modifier, every one at the same voxel size
`objectHeight * voxelSizeFactor` — and each repetition re-voxelizes the
previous pass's output (the final datablock is the iterated image of the
input under the voxel-remesh operator). -/
theorem remeshLoop_iterates (env : Env) (cfg : Config) (source : Obj)
    (o : Obj) (tr : List Event)
    (hm : o.modifiers =
      [remeshModifier (normalized_voxel_size source.bound_box cfg.voxel_size_factor)])
    (h1 : 1 ≤ cfg.voxel_remesh_iterations) :
    remeshLoop env (normalized_voxel_size source.bound_box cfg.voxel_size_factor)
        cfg.voxel_remesh_iterations o tr =
      ({ o with data := voxelIter env (normalized_voxel_size source.bound_box cfg.voxel_size_factor) cfg.voxel_remesh_iterations.toNat o.data, modifiers := ([] : List Modifier) },
       tr ++ remeshEvents o.name (normalized_voxel_size source.bound_box cfg.voxel_size_factor) cfg.voxel_remesh_iterations.toNat) := by
  unfold remeshLoop
  exact remeshSteps_spec env _ _ cfg.voxel_remesh_iterations.toNat 0 o tr hm
    (by omega) (by omega)

/-- Witness for claim C7: a concrete two-iteration run of the loop. -/
theorem remeshLoop_iterates_witness :
    remeshLoop envId (normalized_voxel_size sourceW.bound_box cfgW.voxel_size_factor)
        cfgW.voxel_remesh_iterations objW [] =
      ({ objW with data := voxelIter envId (normalized_voxel_size sourceW.bound_box cfgW.voxel_size_factor) cfgW.voxel_remesh_iterations.toNat objW.data, modifiers := ([] : List Modifier) },
       [] ++ remeshEvents objW.name (normalized_voxel_size sourceW.bound_box cfgW.voxel_size_factor) cfgW.voxel_remesh_iterations.toNat) :=
  remeshLoop_iterates envId cfgW sourceW objW [] rfl (by decide)

/-- Claim C2 counterexample: the claim says `quadPercentage` equals 0
exactly when `totalFaceCount = 0`, but on a remesher output consisting of
a single triangle the computed percentage is 0 while the face count is 1,
so the "exactly when" equivalence fails on the code. -/
theorem quadStats_zero_iff_counterexample :
    ¬ ((quadStats triMesh).quad_percentage = 0 ↔ (quadStats triMesh).total_faces = 0) := by
  have h1 : (quadStats triMesh).quad_percentage = 0 := by
    norm_num [quadStats, triMesh]
  have h2 : (quadStats triMesh).total_faces = 1 := by
    norm_num [quadStats, triMesh]
  intro h
  rw [h1, h2] at h
  simp at h

/-- Claim C2 (amended): for every remesher output, `quadPercentage` is 0
when `totalFaceCount = 0` (no division-by-zero fault), equals
`100 * quadFaceCount / totalFaceCount` when `totalFaceCount ≠ 0`, and is
0 exactly when `totalFaceCount = 0` or `quadFaceCount = 0`. -/
theorem quadStats_spec (d : MeshData) :
    ((quadStats d).total_faces = 0 → (quadStats d).quad_percentage = 0) ∧
    ((quadStats d).total_faces ≠ 0 →
      (quadStats d).quad_percentage =
        100 * ((quadStats d).quad_count : ℚ) / ((quadStats d).total_faces : ℚ)) ∧
    ((quadStats d).quad_percentage = 0 ↔
      (quadStats d).total_faces = 0 ∨ (quadStats d).quad_count = 0) := by
  obtain ⟨q, t, hqt⟩ : ∃ q t, quadStats d =
      { quad_count := q, total_faces := t,
        quad_percentage := if t > 0 then ((q : ℚ) / (t : ℚ)) * 100 else 0 } :=
    ⟨_, _, rfl⟩
  rw [hqt]
  by_cases ht : t = 0
  · subst ht
    norm_num
  · have ht' : 0 < t := Nat.pos_of_ne_zero ht
    simp only [if_pos ht']
    refine ⟨fun h => absurd h ht, fun _ => by rw [div_mul_eq_mul_div, mul_comm], ?_⟩
    rw [mul_eq_zero, div_eq_zero_iff]
    simp [ht]

/-- Witness for the amended claim C2 at a one-quad mesh: the percentage is
`100 * 1 / 1`. -/
theorem quadStats_spec_witness :
    (quadStats quadMesh).quad_percentage =
      100 * ((quadStats quadMesh).quad_count : ℚ) / ((quadStats quadMesh).total_faces : ℚ) :=
  (quadStats_spec quadMesh).2.1 (by decide)

/-- Claim C3: for a non-degenerate source (`objectHeight > 0`) and a
positive factor, `normalizedVoxelSize = objectHeight * voxelSizeFactor`
is strictly positive, and doubling the factor for fixed geometry doubles
the computed voxel size. -/
theorem normalized_voxel_size_spec (bbox : List Vec3) (f : ℚ)
    (hh : 0 < objectHeight bbox) (hf : 0 < f) :
    normalized_voxel_size bbox f = objectHeight bbox * f ∧
    0 < normalized_voxel_size bbox f ∧
    normalized_voxel_size bbox (2 * f) = 2 * normalized_voxel_size bbox f := by
  refine ⟨rfl, mul_pos hh hf, ?_⟩
  unfold normalized_voxel_size
  ring

/-- Witness for claim C3 at a height-1 bounding box and the default
factor 1/100. -/
theorem normalized_voxel_size_spec_witness :
    0 < normalized_voxel_size bboxUnit (1/100) ∧
    normalized_voxel_size bboxUnit (2 * (1/100)) =
      2 * normalized_voxel_size bboxUnit (1/100) := by
  have h := normalized_voxel_size_spec bboxUnit (1/100)
    (by norm_num [objectHeight, listMax, listMin, bboxUnit]) (by norm_num)
  exact ⟨h.2.1, h.2.2⟩

/-- Claim C1: when the imported scene holds no mesh-typed object and no
source name is given, or when the given source name is absent from the
scene, the run fails with (the spec's) `NotFoundError`, nothing is
exported and the export step is never reached. -/
theorem execute_notFound_no_export (env : Env) (cfg : Config)
    (hext : validExtension cfg.file_path = true)
    (hcase :
      (cfg.source_object_name = "" ∧ ∀ o ∈ sceneAfterImport env, o.type ≠ "MESH") ∨
      (cfg.source_object_name ≠ "" ∧ ∀ o ∈ sceneAfterImport env, o.name ≠ cfg.source_object_name)) :
    ∃ e, (execute env cfg).error = some e ∧ e.isNotFound = true ∧
      (execute env cfg).exported = none ∧
      ∀ p, Event.exportGLB p ∉ (execute env cfg).trace := by
  have hres : ∃ e, resolveSource (sceneAfterImport env) cfg.source_object_name =
      Except.error e ∧ e.isNotFound = true := by
    rcases hcase with ⟨hname, hmesh⟩ | ⟨hname, habs⟩
    · refine ⟨Err.noMeshFound, ?_, rfl⟩
      unfold resolveSource
      rw [if_pos hname]
      have hfind : find_first_mesh (sceneAfterImport env) = none := by
        unfold find_first_mesh
        exact List.find?_eq_none.mpr (fun x hx => by simp [hmesh x hx])
      rw [hfind]
    · refine ⟨Err.keyError cfg.source_object_name, ?_, rfl⟩
      unfold resolveSource
      rw [if_neg hname]
      have hfind : (sceneAfterImport env).find?
          (fun o => o.name == cfg.source_object_name) = none :=
        List.find?_eq_none.mpr (fun x hx => by simp [habs x hx])
      rw [hfind]
  rcases hres with ⟨e, he, hnf⟩
  refine ⟨e, ?_, hnf, ?_, ?_⟩ <;> simp [execute, hext, he]

/-- Witness for claim C1: a scene whose only imported object is a light. -/
theorem execute_notFound_no_export_witness :
    ∃ e, (execute envNoMesh cfgNoMesh).error = some e ∧ e.isNotFound = true ∧
      (execute envNoMesh cfgNoMesh).exported = none ∧
      ∀ p, Event.exportGLB p ∉ (execute envNoMesh cfgNoMesh).trace :=
  execute_notFound_no_export envNoMesh cfgNoMesh (by decide) (Or.inl ⟨rfl, by decide⟩)

/-- Helper: every event recorded before the material stage is a
modifier-application event (the cage-construction stages create no images
and invoke no bake). -/
theorem targetBeforeMaterial_events (env : Env) (cfg : Config) (source : Obj) :
    ∀ ev ∈ (targetBeforeMaterial env cfg source).2,
      ∃ onm m, ev = Event.modifierApplied onm m := by
  intro ev hev
  simp only [targetBeforeMaterial, remeshLoop] at hev
  rcases remeshSteps_events env _ _ _ _ _ _ ev hev with h | h
  · exact absurd h (List.not_mem_nil ev)
  · exact h

/-- Helper: with `keep_vertex_colors` set, a run allocates no images and
invokes no bake, whatever the scene contains. -/
theorem execute_keep_no_bake (env : Env) (cfg : Config)
    (hk : cfg.keep_vertex_colors = true) :
    (execute env cfg).images = env.initialImages ∧
    ∀ ev ∈ (execute env cfg).trace,
      (∀ n w h, ev ≠ Event.imageNew n w h) ∧
      ev ≠ Event.bakeImage ∧ (∀ s, ev ≠ Event.bake s) := by
  by_cases hval : validExtension cfg.file_path
  · cases hres : resolveSource (sceneAfterImport env) cfg.source_object_name with
    | error e => simp [execute, hval, hres]
    | ok source =>
        have hexe : execute env cfg =
            pipelineAfterMaterial env cfg source.name
              (targetBeforeMaterial env cfg source).1 (targetBeforeMaterial env cfg source).2 := by
          simp [execute, hval, hres]
        rw [hexe]
        constructor
        · simp [pipelineAfterMaterial, hk]
        · intro ev hev
          simp only [pipelineAfterMaterial, hk, if_true] at hev
          rcases List.mem_append.mp hev with h | h
          · rcases targetBeforeMaterial_events env cfg source ev h with ⟨onm, m, rfl⟩
            exact ⟨fun n w hgt => by simp, by simp, fun s => by simp⟩
          · simp only [List.mem_cons, List.not_mem_nil, or_false] at h
            rcases h with rfl | rfl | rfl <;>
              exact ⟨fun n w hgt => by simp, by simp, fun s => by simp⟩
  · simp [execute, hval]

/-- Claim C4: with `keep_vertex_colors` set on a source carrying a
vertex-color channel, texture allocation is skipped entirely: the session
image list is unchanged, no raster buffer is created, and neither the
multires normal bake nor the diffuse bake is invoked. -/
theorem keepVertexColors_skips_bakes (env : Env) (cfg : Config)
    (hk : cfg.keep_vertex_colors = true)
    ( _hvc : ∀ o, resolveSource (sceneAfterImport env) cfg.source_object_name = Except.ok o →
      o.data.vertex_colors ≠ []) :
    (execute env cfg).images = env.initialImages ∧
    ∀ ev ∈ (execute env cfg).trace,
      (∀ n w h, ev ≠ Event.imageNew n w h) ∧
      ev ≠ Event.bakeImage ∧ (∀ s, ev ≠ Event.bake s) :=
  execute_keep_no_bake env cfg hk

/-- Witness for claim C4: the vertex-colored mesh with the fast path on. -/
theorem keepVertexColors_skips_bakes_witness :
    (execute envVC cfgKeep).images = envVC.initialImages ∧
    ∀ ev ∈ (execute envVC cfgKeep).trace,
      (∀ n w h, ev ≠ Event.imageNew n w h) ∧
      ev ≠ Event.bakeImage ∧ (∀ s, ev ≠ Event.bake s) :=
  keepVertexColors_skips_bakes envVC cfgKeep rfl (fun o h => by
    have h2 : Except.ok (ε := Err) vcMeshObj = Except.ok o := h
    cases h2
    decide)

/-- Helper: the post-resolution pipeline never sets an error. -/
theorem pipelineAfterMaterial_error (env : Env) (cfg : Config) (sn : String)
    (t : Obj) (tr : List Event) :
    (pipelineAfterMaterial env cfg sn t tr).error = none := rfl

/-- Helper: the post-resolution pipeline always reaches the GLB export. -/
theorem pipelineAfterMaterial_export_mem (env : Env) (cfg : Config) (sn : String)
    (t : Obj) (tr : List Event) :
    Event.exportGLB (stem cfg.file_path ++ ".glb") ∈
      (pipelineAfterMaterial env cfg sn t tr).trace := by
  simp [pipelineAfterMaterial]

/-- Claim C5 counterexample: a flat source (bounding-box height 0) is not
rejected — the claim says validation fails with `DegenerateGeometryError`
before any later stage, but the run raises no error, the voxel-remesh
stage runs (at voxel size 0), and the file is exported. -/
theorem no_degenerate_check_counterexample :
    objectHeight flatObj.bound_box ≤ 0 ∧
    (execute envFlat cfgFlat).error = none ∧
    Event.modifierApplied "Flat.001" (remeshModifier nvsFlat) ∈ (execute envFlat cfgFlat).trace ∧
    Event.exportGLB "flat.glb" ∈ (execute envFlat cfgFlat).trace := by
  have ht : (execute envFlat cfgFlat).trace =
      [Event.modifierApplied "Flat.001" (remeshModifier nvsFlat),
       Event.imageNew "Diffuse_1000" 2048 2048,
       Event.imageNew "Normals_1000" 2048 2048,
       Event.modifierApplied "Flat.001" (shrinkwrapModifier "Flat"),
       Event.bakeImage, Event.imagePack,
       Event.bake "DIFFUSE", Event.imagePack,
       Event.modifierRemoved "Flat.001" "Multires",
       Event.objectDeleted "Flat",
       Event.exportGLB "flat.glb"] := rfl
  refine ⟨by norm_num [objectHeight, listMax, listMin, flatObj], rfl, ?_, ?_⟩
  · rw [ht]; exact List.Mem.head _
  · rw [ht]; simp

/-- Claim C5 (amended): the code performs no height validation at all —
for every resolved source whose bounding-box height is ≤ 0 (and a
nonnegative voxel factor), the derived voxel size is ≤ 0, no error is
raised, and the pipeline proceeds through all later stages to export. -/
theorem degenerate_height_run_completes (env : Env) (cfg : Config) (source : Obj)
    (hext : validExtension cfg.file_path = true)
    (hres : resolveSource (sceneAfterImport env) cfg.source_object_name = Except.ok source)
    (hh : objectHeight source.bound_box ≤ 0)
    (hf : 0 ≤ cfg.voxel_size_factor) :
    normalized_voxel_size source.bound_box cfg.voxel_size_factor ≤ 0 ∧
    (execute env cfg).error = none ∧
    Event.exportGLB (stem cfg.file_path ++ ".glb") ∈ (execute env cfg).trace := by
  have hexe : execute env cfg =
      pipelineAfterMaterial env cfg source.name
        (targetBeforeMaterial env cfg source).1 (targetBeforeMaterial env cfg source).2 := by
    simp [execute, hext, hres]
  refine ⟨mul_nonpos_iff.mpr (Or.inr ⟨hh, hf⟩), ?_, ?_⟩
  · rw [hexe]; exact pipelineAfterMaterial_error _ _ _ _ _
  · rw [hexe]; exact pipelineAfterMaterial_export_mem _ _ _ _ _

/-- Witness for the amended claim C5: the concrete flat-object run. -/
theorem degenerate_height_run_completes_witness :
    normalized_voxel_size flatObj.bound_box cfgFlat.voxel_size_factor ≤ 0 ∧
    (execute envFlat cfgFlat).error = none ∧
    Event.exportGLB (stem cfgFlat.file_path ++ ".glb") ∈ (execute envFlat cfgFlat).trace :=
  degenerate_height_run_completes envFlat cfgFlat flatObj (by decide) rfl
    (by norm_num [objectHeight, listMax, listMin, flatObj])
    (by norm_num [cfgFlat])

/-- Claim C6 counterexample: when the projection operator leaves a polygon
unparameterized, the UV stage neither yields a fully covered single UV
channel nor fails — the claim's `UnwrapError` does not exist in the code:
the run completes without error and still exports the mesh. -/
theorem uv_no_unwrap_error_counterexample :
    ((execute envBadUV cfgBadUV).exported.map (fun t => uvFullyCovered t.data)) = some false ∧
    (execute envBadUV cfgBadUV).error = none ∧
    Event.exportGLB (stem cfgBadUV.file_path ++ ".glb") ∈ (execute envBadUV cfgBadUV).trace := by
  refine ⟨rfl, rfl, ?_⟩
  have hexe : execute envBadUV cfgBadUV =
      pipelineAfterMaterial envBadUV cfgBadUV meshObj.name
        (targetBeforeMaterial envBadUV cfgBadUV meshObj).1
        (targetBeforeMaterial envBadUV cfgBadUV meshObj).2 := by
    simp [execute]
    rfl
  rw [hexe]
  exact pipelineAfterMaterial_export_mem _ _ _ _ _

/-- Helper: a source-resolution failure is always one of the spec's
`NotFoundError` cases. -/
theorem resolveSource_error_isNotFound (objects : List Obj) (name : String) (e : Err)
    (h : resolveSource objects name = Except.error e) : e.isNotFound = true := by
  unfold resolveSource at h
  by_cases hname : name = ""
  · rw [if_pos hname] at h
    cases hfind : find_first_mesh objects with
    | none => rw [hfind] at h; injection h with h2; rw [← h2]; rfl
    | some o => rw [hfind] at h; exact Except.noConfusion h
  · rw [if_neg hname] at h
    cases hfind : objects.find? (fun o => o.name == name) with
    | none => rw [hfind] at h; injection h with h2; rw [← h2]; rfl
    | some o => rw [hfind] at h; exact Except.noConfusion h

/-- Claim C6 (amended): the UV stage applies smart projection with island
margin 0.02 unconditionally and performs no coverage verification — a run
can only fail with the unsupported-format error or a source-resolution
(`NotFoundError`) failure; no `UnwrapError` (or any post-resolution
error) exists. -/
theorem execute_error_cases (env : Env) (cfg : Config) (e : Err)
    (h : (execute env cfg).error = some e) :
    e = Err.invalidFileFormat ∨ e.isNotFound = true := by
  by_cases hval : validExtension cfg.file_path
  · cases hres : resolveSource (sceneAfterImport env) cfg.source_object_name with
    | error e2 =>
        have he2 : (execute env cfg).error = some e2 := by simp [execute, hval, hres]
        rw [h] at he2
        injection he2 with he3
        subst he3
        exact Or.inr (resolveSource_error_isNotFound _ _ _ hres)
    | ok source =>
        have hnone : (execute env cfg).error = none := by
          simp [execute, hval, hres, pipelineAfterMaterial_error]
        rw [h] at hnone
        exact absurd hnone (by simp)
  · have hinv : (execute env cfg).error = some Err.invalidFileFormat := by
      simp [execute, hval]
    rw [h] at hinv
    injection hinv with h2
    exact Or.inl h2

/-- Witness for the amended claim C6: the empty-scene run fails with the
no-mesh resolution error, which the theorem classifies as a
`NotFoundError`. -/
theorem execute_error_cases_witness :
    Err.noMeshFound = Err.invalidFileFormat ∨ Err.noMeshFound.isNotFound = true :=
  execute_error_cases envEmptyScene cfgEmptyScene Err.noMeshFound rfl

/-- Claim C8 counterexample: the generated identifier is a bare random
4-digit suffix with no check against the session — in a session already
holding an image named "Diffuse_1234", a run whose random draw is 1234
creates a raster buffer whose generated identifier equals that existing
identifier, so the claimed collision guarantee is false. -/
theorem texture_name_collision_counterexample :
    "Diffuse_1234" ∈ envCollide.initialImages ∧
    Event.imageNew "Diffuse_1234" 2048 2048 ∈ (execute envCollide cfgCollide).trace := by
  have ht : (execute envCollide cfgCollide).trace =
      [Event.modifierApplied "M.001" (remeshModifier nvsCollide),
       Event.imageNew "Diffuse_1234" 2048 2048,
       Event.imageNew "Normals_1234" 2048 2048,
       Event.modifierApplied "M.001" (shrinkwrapModifier "M"),
       Event.bakeImage, Event.imagePack,
       Event.bake "DIFFUSE", Event.imagePack,
       Event.modifierRemoved "M.001" "Multires",
       Event.objectDeleted "M",
       Event.exportGLB "m.glb"] := rfl
  refine ⟨List.Mem.head _, ?_⟩
  rw [ht]
  simp

/-- Claim C8 (amended): the two raster buffers allocated in a baking run
do receive identifiers distinct from each other (the prefixes "Diffuse_"
and "Normals_" differ, the random suffix is shared), but nothing checks
them against identifiers already existing in the session. -/
theorem texture_names_distinct (n : Nat) : diffuseName n ≠ normalsName n := by
  intro h
  have hd : (diffuseName n).data = (normalsName n).data := congrArg String.data h
  have h1 : (diffuseName n).data = "Diffuse_".data ++ (toString n).data := rfl
  have h2 : (normalsName n).data = "Normals_".data ++ (toString n).data := rfl
  rw [h1, h2] at hd
  have h3 : "Diffuse_".data = "Normals_".data := List.append_cancel_right hd
  exact absurd h3 (by decide)

/-- Witness for the amended claim C8 at the collision run's draw: the two
identifiers generated from suffix 1234 differ. -/
theorem texture_names_distinct_witness : diffuseName 1234 ≠ normalsName 1234 :=
  texture_names_distinct 1234

/-- Claim C9: with `keep_vertex_colors` set, texture allocation and both
bakes are skipped regardless of whether the target actually carries a
vertex-color channel; and when the target carries none and has no
existing material, a plain node-based material with no texture nodes —
not the vertex-color material — is attached. -/
theorem keepVertexColors_plain_material (env : Env) (cfg : Config) (source : Obj)
    (hext : validExtension cfg.file_path = true)
    (hres : resolveSource (sceneAfterImport env) cfg.source_object_name = Except.ok source)
    (hk : cfg.keep_vertex_colors = true) :
    (∀ ev ∈ (execute env cfg).trace,
      (∀ n w h, ev ≠ Event.imageNew n w h) ∧
      ev ≠ Event.bakeImage ∧ (∀ s, ev ≠ Event.bake s)) ∧
    ((targetBeforeMaterial env cfg source).1.data.vertex_colors = [] →
     (targetBeforeMaterial env cfg source).1.data.materials = [] →
     ∃ t, (execute env cfg).exported = some t ∧
       t.data.materials = [plainMaterial] ∧
       plainMaterial.use_nodes = true ∧
       (∀ nd ∈ plainMaterial.nodes, nd.type ≠ "TEX_IMAGE" ∧ nd.type ≠ "VERTEX_COLOR") ∧
       plainMaterial ≠ vertexColorMaterial) := by
  refine ⟨(execute_keep_no_bake env cfg hk).2, ?_⟩
  intro hvc hmat
  have hexe : execute env cfg =
      pipelineAfterMaterial env cfg source.name
        (targetBeforeMaterial env cfg source).1 (targetBeforeMaterial env cfg source).2 := by
    simp [execute, hext, hres]
  rw [hexe]
  simp only [pipelineAfterMaterial, hk, if_true, materialSetup, hvc, hmat]
  refine ⟨_, rfl, by simp, rfl, by decide, by decide⟩

/-- Witness for claim C9: the plain quad mesh with the fast path on gets
exactly the plain material. -/
theorem keepVertexColors_plain_material_witness :
    ∃ t, (execute envM cfgKeep).exported = some t ∧ t.data.materials = [plainMaterial] := by
  have h := keepVertexColors_plain_material envM cfgKeep meshObj (by decide) rfl rfl
  rcases h.2 rfl rfl with ⟨t, h1, h2, _⟩
  exact ⟨t, h1, h2⟩

/-- Helper: iterated multires subdivision never renames a modifier. -/
theorem subdivideMultiresEntry_iterate_name (k : Nat) (m : Modifier) :
    (subdivideMultiresEntry^[k] m).name = m.name := by
  induction k generalizing m with
  | zero => rfl
  | succ j ih =>
      rw [Function.iterate_succ_apply, ih]
      unfold subdivideMultiresEntry
      split <;> rfl

/-- Helper: the material stage never touches the modifier stack. -/
theorem materialSetup_modifiers (t : Obj) (hv k : Bool) :
    ((materialSetup t hv k).2).modifiers = t.modifiers := by
  unfold materialSetup
  split
  · split <;> rfl
  · rfl

/-- Helper: the subdivision loop only rewrites the modifier stack,
entry-wise. -/
theorem multires_subdivide_iterate (k : Nat) (o : Obj) :
    multires_subdivide^[k] o =
      { o with modifiers := o.modifiers.map (fun m => subdivideMultiresEntry^[k] m) } := by
  induction k generalizing o with
  | zero => simp
  | succ j ih =>
      rw [Function.iterate_succ_apply, ih]
      simp only [multires_subdivide, List.map_map]
      have hfun : (fun m => subdivideMultiresEntry^[j] m) ∘ subdivideMultiresEntry
          = fun m => subdivideMultiresEntry^[j + 1] m := by
        funext m
        exact (Function.iterate_succ_apply subdivideMultiresEntry j m).symm
      rw [hfun]

/-- Helper: with a modifier-free source and at least one remesh
iteration, the cage entering the material stage carries exactly the
(subdivided) multires modifier and the projection shrinkwrap modifier,
and the trace so far is exactly the remesh applications. -/
theorem targetBeforeMaterial_spec (env : Env) (cfg : Config) (source : Obj)
    (hmods : source.modifiers = [])
    (h1 : 1 ≤ cfg.voxel_remesh_iterations) :
    targetBeforeMaterial env cfg source =
      (⟨env.duplicateSuffix source.name, source.type, cageData env cfg source,
        source.bound_box,
        [subdivideMultiresEntry^[cfg.multiresolution_levels.toNat] multiresModifier,
         shrinkwrapModifier source.name], true⟩,
       remeshEvents (env.duplicateSuffix source.name)
         (normalized_voxel_size source.bound_box cfg.voxel_size_factor)
         cfg.voxel_remesh_iterations.toNat) := by
  simp only [targetBeforeMaterial, remeshLoop]
  rw [remeshSteps_spec env (normalized_voxel_size source.bound_box cfg.voxel_size_factor)
      cfg.voxel_remesh_iterations cfg.voxel_remesh_iterations.toNat 0
      { source with name := env.duplicateSuffix source.name, smooth := true, modifiers := source.modifiers ++ [remeshModifier (normalized_voxel_size source.bound_box cfg.voxel_size_factor)] }
      [] (by simp [hmods]) (by omega) (by omega)]
  rw [multires_subdivide_iterate]
  simp [cageData]

/-- Claim C10: with `keep_vertex_colors` set (modifier-free source, at
least one remesh iteration), the shrinkwrap projection modifier added
during cage construction is never applied — no shrinkwrap application
event ever appears in the trace, so projection never changes the target's
vertices — and the mesh is exported with that modifier still attached,
only the multires modifier having been removed. -/
theorem keepVertexColors_shrinkwrap_unapplied (env : Env) (cfg : Config) (source : Obj)
    (hext : validExtension cfg.file_path = true)
    (hres : resolveSource (sceneAfterImport env) cfg.source_object_name = Except.ok source)
    (hk : cfg.keep_vertex_colors = true)
    (hmods : source.modifiers = [])
    (h1 : 1 ≤ cfg.voxel_remesh_iterations) :
    (∀ ev ∈ (execute env cfg).trace, ∀ onm m,
      ev = Event.modifierApplied onm m → m.type ≠ "SHRINKWRAP") ∧
    ∃ t, (execute env cfg).exported = some t ∧
      t.modifiers = [shrinkwrapModifier source.name] ∧
      ∀ m ∈ t.modifiers, m.name ≠ "Multires" := by
  have hexe : execute env cfg =
      pipelineAfterMaterial env cfg source.name
        (targetBeforeMaterial env cfg source).1 (targetBeforeMaterial env cfg source).2 := by
    simp [execute, hext, hres]
  have htbm := targetBeforeMaterial_spec env cfg source hmods h1
  constructor
  · intro ev hev onm m hevm
    rw [hexe] at hev
    simp only [pipelineAfterMaterial, hk, if_true] at hev
    rcases List.mem_append.mp hev with h | h
    · rw [htbm] at h
      simp only [remeshEvents, List.mem_replicate] at h
      have hcomb := h.2.symm.trans hevm
      injection hcomb with hcomb1 hcomb2
      rw [← hcomb2]
      simp [remeshModifier]
    · simp only [List.mem_cons, List.not_mem_nil, or_false] at h
      rcases h with rfl | rfl | rfl <;> simp at hevm
  · rw [hexe]
    simp only [pipelineAfterMaterial, hk, if_true]
    have herase : List.eraseP (fun m => m.name == "Multires")
        ((materialSetup (targetBeforeMaterial env cfg source).1
          (!(targetBeforeMaterial env cfg source).1.data.vertex_colors.isEmpty)
          true).2.modifiers) = [shrinkwrapModifier source.name] := by
      rw [materialSetup_modifiers, htbm]
      exact List.eraseP_cons_of_pos
        (by simp [subdivideMultiresEntry_iterate_name, multiresModifier])
    refine ⟨_, rfl, ?_, ?_⟩
    · simpa using herase
    · intro m hm
      have hm2 : m ∈ [shrinkwrapModifier source.name] := by simpa [herase] using hm
      rw [List.mem_singleton.mp hm2]
      simp [shrinkwrapModifier]

/-- Witness for claim C10: the plain quad mesh with the fast path on is
exported with exactly the shrinkwrap modifier attached. -/
theorem keepVertexColors_shrinkwrap_unapplied_witness :
    ∃ t, (execute envM cfgKeep).exported = some t ∧
      t.modifiers = [shrinkwrapModifier "M"] ∧ ∀ m ∈ t.modifiers, m.name ≠ "Multires" := by
  have h := keepVertexColors_shrinkwrap_unapplied envM cfgKeep meshObj
    (by decide) rfl rfl rfl (by decide)
  exact h.2

end Lowpoly
